import Mathlib

/-
Verification of the job-management core of procrastinate
(src/procrastinate/manager.py), a shallow embedding in Lean 4.

The store adapter (connector), the SQL layer, the jobs/tasks modules and the
exceptions module are external to src/: where an operation of theirs decides a
property, it is modelled from the spec and marked as such in its doc comment.
The connector is passed to each operation as a function argument, so theorems
quantify over every store behavior.
-/

namespace Procrastinate

/-- Job statuses. jobs.Status is not under src/; the spec fixes the four
statuses todo, doing, succeeded, failed and their string values. -/
inductive Status where
  | todo
  | doing
  | succeeded
  | failed
deriving DecidableEq

/-- The string value of a status, as sent to the store. -/
def Status.value : Status → String
  | .todo => "todo"
  | .doing => "doing"
  | .succeeded => "succeeded"
  | .failed => "failed"

/-- The task payload: arbitrary key/value data, never inspected by the core. -/
abbrev JobArgs := List (String × String)

/-- Modelled from the spec: jobs.Job (jobs.py is not under src/). The job
description carries a store-assigned optional id, queue, task name, optional
lock, optional queueing lock, payload, optional scheduled time and attempts. -/
structure Job where
  id : Option Int
  queue : String
  task_name : String
  lock : Option String
  queueing_lock : Option String
  task_kwargs : JobArgs
  scheduled_at : Option Int
  attempts : Int
deriving DecidableEq

/-- Modelled from the spec: tasks.Task as consumed by defer_periodic_job
(tasks.py is not under src/): a name, a queue, an optional lock and an
optional queueing lock. -/
structure Task where
  name : String
  queue : String
  lock : Option String
  queueing_lock : Option String
deriving DecidableEq

/-- Modelled from the spec: connector.QUEUEING_LOCK_CONSTRAINT (connector.py is
not under src/): the distinguished identity of the queueing-lock uniqueness
constraint, by which the core tells a queueing-lock violation from any other. -/
def QUEUEING_LOCK_CONSTRAINT : String := "procrastinate_jobs_queueing_lock_idx"

/-- Modelled from the spec: store failures are classified at minimum into a
distinguished unique-constraint violation carrying the violated constraint
identity (exceptions.UniqueViolation), and a generic failure kind. -/
inductive StoreError where
  | uniqueViolation (constraint_name : String)
  | failure (name : String)
deriving DecidableEq

/-- Outcome of a defer operation as observed by the caller: a returned row id,
an AlreadyEnqueued error, or a store error propagated unchanged. -/
inductive DeferOutcome where
  | returned (id : Option Int)
  | alreadyEnqueued (message : String)
  | raisedStore (e : StoreError)
deriving DecidableEq

/-- Rendering of an optional string inside a Python f-string: None prints as
the text "None", a string prints as itself. -/
def pyStr : Option String → String
  | none => "None"
  | some s => s

/-- Python `x or y` on an optional string: None and the empty string are
falsy, any other string is truthy. -/
def pyOrStr (v : Option String) (fallback : String) : String :=
  match v with
  | none => fallback
  | some s => if s = "" then fallback else s

/-- Python `not x` on an optional bool: None and False are falsy. -/
def pyNot : Option Bool → Bool
  | none => true
  | some b => !b

/-- Row answered by the store for a defer query; only its id field is read. -/
structure DeferRow where
  id : Option Int
deriving DecidableEq

/-- The parameters of the defer-job store operation. -/
structure DeferQueryArgs where
  query : String
  task_name : String
  queue : String
  lock : String
  queueing_lock : Option String
  args : JobArgs
  scheduled_at : Option Int
deriving DecidableEq

/-- JobManager._defer_job_query_kwargs: builds the defer-job query parameters;
freshToken stands for the str(uuid.uuid4()) evaluated in the call. -/
def defer_job_query_kwargs (job : Job) (freshToken : String) : DeferQueryArgs :=
  { query := "defer_job"
    task_name := job.task_name
    queue := job.queue
    lock := pyOrStr job.lock freshToken
    queueing_lock := job.queueing_lock
    args := job.task_kwargs
    scheduled_at := job.scheduled_at }

/-- The message of the AlreadyEnqueued error raised by
JobManager._raise_already_enqueued; it ends with the rendering of the
conflicting queueing lock. -/
def alreadyEnqueuedMessage (queueing_lock : Option String) : String :=
  "Job cannot be enqueued: there is already a job in the queue with the queueing lock "
    ++ pyStr queueing_lock

/-- JobManager._raise_already_enqueued: if the violated constraint is the
queueing-lock constraint, raise AlreadyEnqueued naming the queueing lock;
otherwise re-raise the unique violation unchanged. -/
def raise_already_enqueued (constraint_name : String) (queueing_lock : Option String) :
    DeferOutcome :=
  if constraint_name = QUEUEING_LOCK_CONSTRAINT then
    DeferOutcome.alreadyEnqueued (alreadyEnqueuedMessage queueing_lock)
  else
    DeferOutcome.raisedStore (StoreError.uniqueViolation constraint_name)

/-- JobManager.defer_job_async; the connector argument stands for
execute_query_one_async applied to the defer-job query parameters. -/
def defer_job_async (connector : DeferQueryArgs → Except StoreError DeferRow)
    (job : Job) (freshToken : String) : DeferOutcome :=
  match connector (defer_job_query_kwargs job freshToken) with
  | Except.ok result => DeferOutcome.returned result.id
  | Except.error (StoreError.uniqueViolation c) => raise_already_enqueued c job.queueing_lock
  | Except.error e => DeferOutcome.raisedStore e

/-- JobManager.defer_job, the synchronous form; the connector argument stands
for execute_query_one applied to the defer-job query parameters. -/
def defer_job (connector : DeferQueryArgs → Except StoreError DeferRow)
    (job : Job) (freshToken : String) : DeferOutcome :=
  match connector (defer_job_query_kwargs job freshToken) with
  | Except.ok result => DeferOutcome.returned result.id
  | Except.error (StoreError.uniqueViolation c) => raise_already_enqueued c job.queueing_lock
  | Except.error e => DeferOutcome.raisedStore e

/-- The parameters of the defer-periodic-job store operation. -/
structure PeriodicDeferQueryArgs where
  query : String
  task_name : String
  queue : String
  lock : Option String
  queueing_lock : Option String
  defer_timestamp : Int
deriving DecidableEq

/-- The query parameters built inline in JobManager.defer_periodic_job. -/
def defer_periodic_query_args (task : Task) (defer_timestamp : Int) :
    PeriodicDeferQueryArgs :=
  { query := "defer_periodic_job"
    task_name := task.name
    queue := task.queue
    lock := task.lock
    queueing_lock := task.queueing_lock
    defer_timestamp := defer_timestamp }

/-- JobManager.defer_periodic_job. -/
def defer_periodic_job (connector : PeriodicDeferQueryArgs → Except StoreError DeferRow)
    (task : Task) (defer_timestamp : Int) : DeferOutcome :=
  match connector (defer_periodic_query_args task defer_timestamp) with
  | Except.ok result => DeferOutcome.returned result.id
  | Except.error (StoreError.uniqueViolation c) => raise_already_enqueued c task.queueing_lock
  | Except.error e => DeferOutcome.raisedStore e

/-- Modelled from the spec: the defer-periodic-job store operation (the SQL
layer is not under src/) creates at most one record per (task, timestamp);
when a job for that key already exists it answers a row whose id is null
instead of creating a second record, otherwise it answers a row carrying the
id of the newly created record. -/
def periodicStore (existing : List (String × Int)) (newId : Int) :
    PeriodicDeferQueryArgs → Except StoreError DeferRow :=
  fun a =>
    if (a.task_name, a.defer_timestamp) ∈ existing then Except.ok { id := none }
    else Except.ok { id := some newId }

/-- get_channel_for_queues: the notification-channel mapping. -/
def get_channel_for_queues (queues : Option (List String)) : List String :=
  match queues with
  | none => ["procrastinate_any_queue"]
  | some qs => qs.map (fun queue => "procrastinate_queue#" ++ queue)

/-- The parameters of the delete-old-jobs store operation. -/
structure DeleteOldJobsArgs where
  query : String
  nb_hours : Int
  queue : Option String
  statuses : List String
deriving DecidableEq

/-- JobManager.delete_old_jobs: builds the parameters passed to the
delete-old-jobs store operation. -/
def delete_old_jobs (nb_hours : Int) (queue : Option String)
    (include_error : Option Bool) : DeleteOldJobsArgs :=
  let statuses :=
    if pyNot include_error then [Status.succeeded.value]
    else [Status.succeeded.value, Status.failed.value]
  { query := "delete_old_jobs"
    nb_hours := nb_hours
    queue := queue
    statuses := statuses }

/-- A row of the list-queues or list-tasks aggregation: a name, a total count
and a per-status mapping that may omit empty buckets. -/
structure StatsRow where
  name : String
  jobs_count : Int
  stats : List (String × Int)
deriving DecidableEq

/-- Python row["stats"].get(key, 0) on the per-status mapping. -/
def statsGet (stats : List (String × Int)) (key : String) : Int :=
  match stats.find? (fun p => p.1 == key) with
  | some p => p.2
  | none => 0

/-- The projection produced per row by list_queues_async and list_tasks_async:
all four status counts are fields, hence always present. -/
structure QueueStatsOut where
  name : String
  jobs_count : Int
  todo : Int
  doing : Int
  succeeded : Int
  failed : Int
deriving DecidableEq

/-- The per-row projection inside JobManager.list_queues_async. -/
def queueStatsProjection (row : StatsRow) : QueueStatsOut :=
  { name := row.name
    jobs_count := row.jobs_count
    todo := statsGet row.stats "todo"
    doing := statsGet row.stats "doing"
    succeeded := statsGet row.stats "succeeded"
    failed := statsGet row.stats "failed" }

/-- JobManager.list_queues_async over the rows answered by the store. -/
def list_queues_async (rows : List StatsRow) : List QueueStatsOut :=
  rows.map queueStatsProjection

/-- The per-row projection inside JobManager.list_tasks_async. -/
def taskStatsProjection (row : StatsRow) : QueueStatsOut :=
  { name := row.name
    jobs_count := row.jobs_count
    todo := statsGet row.stats "todo"
    doing := statsGet row.stats "doing"
    succeeded := statsGet row.stats "succeeded"
    failed := statsGet row.stats "failed" }

/-- JobManager.list_tasks_async over the rows answered by the store. -/
def list_tasks_async (rows : List StatsRow) : List QueueStatsOut :=
  rows.map taskStatsProjection

/-- Row answered by the fetch-job store operation: always a row; when no
eligible job exists its id is null. -/
structure FetchRow where
  id : Option Int
  queue_name : String
  task_name : String
  lock : Option String
  queueing_lock : Option String
  args : JobArgs
  scheduled_at : Option Int
  attempts : Int
deriving DecidableEq

/-- Modelled from the spec: jobs.Job.from_row (jobs.py is not under src/);
fetch returns a fully materialized Job Record, so every field of the row is
copied into the record. -/
def Job.from_row (row : FetchRow) : Job :=
  { id := row.id
    queue := row.queue_name
    task_name := row.task_name
    lock := row.lock
    queueing_lock := row.queueing_lock
    task_kwargs := row.args
    scheduled_at := row.scheduled_at
    attempts := row.attempts }

/-- JobManager.fetch_job; the connector argument stands for
execute_query_one_async on the fetch-job query with the queues filter. -/
def fetch_job (connector : Option (List String) → FetchRow)
    (queues : Option (List String)) : Option Job :=
  let row := connector queues
  if row.id = none then none
  else some (Job.from_row row)

/-- A sample job with no lock, used to instantiate the theorems below. -/
def sampleJobNoLock : Job :=
  { id := none, queue := "q", task_name := "t", lock := none,
    queueing_lock := none, task_kwargs := [], scheduled_at := none, attempts := 0 }

/-- A sample job whose lock is the empty string. -/
def sampleJobEmptyLock : Job :=
  { id := none, queue := "q", task_name := "t", lock := some "",
    queueing_lock := none, task_kwargs := [], scheduled_at := none, attempts := 0 }

/-- A sample job with a non-empty lock. -/
def sampleJobNamedLock : Job :=
  { id := none, queue := "q", task_name := "t", lock := some "mylock",
    queueing_lock := none, task_kwargs := [], scheduled_at := none, attempts := 0 }

/-- A sample job carrying a queueing lock. -/
def sampleJobQL : Job :=
  { id := none, queue := "q", task_name := "t", lock := none,
    queueing_lock := some "L1", task_kwargs := [], scheduled_at := none, attempts := 0 }

/-- A sample periodic task with no lock. -/
def sampleTask : Task :=
  { name := "t1", queue := "q", lock := none, queueing_lock := none }

/-- A sample stats row whose aggregation only has a todo bucket. -/
def sampleStatsRow : StatsRow :=
  { name := "q1", jobs_count := 3, stats := [("todo", 3)] }

/-- A sample fetch row carrying a null id: the store's way of saying that no
eligible job exists. -/
def sampleEmptyFetchRow : FetchRow :=
  { id := none, queue_name := "", task_name := "", lock := none,
    queueing_lock := none, args := [], scheduled_at := none, attempts := 0 }

/-- C1: for every call to defer_periodic_job against the modelled periodic
store, when a job for that (task, timestamp) already exists the operation
returns None silently to the caller; when no such job exists, it returns the
id of the newly created record. -/
theorem C1_defer_periodic_job_dedup (existing : List (String × Int)) (newId : Int)
    (task : Task) (ts : Int) :
    ((task.name, ts) ∈ existing →
      defer_periodic_job (periodicStore existing newId) task ts
        = DeferOutcome.returned none)
    ∧ ((task.name, ts) ∉ existing →
      defer_periodic_job (periodicStore existing newId) task ts
        = DeferOutcome.returned (some newId)) := by
  constructor <;> intro h <;>
    simp [defer_periodic_job, periodicStore, defer_periodic_query_args, h]

theorem C1_defer_periodic_job_dedup_witness :
    ((sampleTask.name, (5 : Int)) ∈ [("t1", (5 : Int))]
      ∧ defer_periodic_job (periodicStore [("t1", 5)] 9) sampleTask 5
        = DeferOutcome.returned none)
    ∧ ((sampleTask.name, (6 : Int)) ∉ [("t1", (5 : Int))]
      ∧ defer_periodic_job (periodicStore [("t1", 5)] 9) sampleTask 6
        = DeferOutcome.returned (some 9)) :=
  ⟨⟨by decide, (C1_defer_periodic_job_dedup [("t1", 5)] 9 sampleTask 5).1 (by decide)⟩,
   ⟨by decide, (C1_defer_periodic_job_dedup [("t1", 5)] 9 sampleTask 6).2 (by decide)⟩⟩

/-- C2: for every defer call in which the store raises a unique-constraint
violation, the outcome is AlreadyEnqueued carrying the message that names the
job's queueing lock exactly when the violated constraint is the queueing-lock
constraint; any other unique violation or store failure is re-raised
unchanged, in both the asynchronous and the synchronous form, and the
AlreadyEnqueued message always ends with the conflicting queueing-lock
value. -/
theorem C2_defer_error_classification (job : Job) (t : String) (e : StoreError) :
    (defer_job_async (fun _ => Except.error e) job t
        = DeferOutcome.alreadyEnqueued (alreadyEnqueuedMessage job.queueing_lock)
      ↔ e = StoreError.uniqueViolation QUEUEING_LOCK_CONSTRAINT)
    ∧ (e ≠ StoreError.uniqueViolation QUEUEING_LOCK_CONSTRAINT →
        defer_job_async (fun _ => Except.error e) job t = DeferOutcome.raisedStore e
        ∧ defer_job (fun _ => Except.error e) job t = DeferOutcome.raisedStore e)
    ∧ (∀ ql : Option String, ∃ p : String,
        alreadyEnqueuedMessage ql = p ++ pyStr ql) := by
  refine ⟨?_, ?_, fun ql => ⟨_, rfl⟩⟩
  · cases e with
    | uniqueViolation c =>
      by_cases hc : c = QUEUEING_LOCK_CONSTRAINT
      · subst hc
        simp [defer_job_async, raise_already_enqueued]
      · simp [defer_job_async, raise_already_enqueued, hc]
    | failure n =>
      simp [defer_job_async]
  · intro hne
    cases e with
    | uniqueViolation c =>
      have hc : c ≠ QUEUEING_LOCK_CONSTRAINT := by
        intro h
        exact hne (by rw [h])
      constructor <;> simp [defer_job_async, defer_job, raise_already_enqueued, hc]
    | failure n =>
      constructor <;> simp [defer_job_async, defer_job]

theorem C2_defer_error_classification_witness :
    StoreError.failure "connection closed"
        ≠ StoreError.uniqueViolation QUEUEING_LOCK_CONSTRAINT
    ∧ defer_job_async (fun _ => Except.error (StoreError.failure "connection closed"))
        sampleJobQL "tok"
      = DeferOutcome.raisedStore (StoreError.failure "connection closed") :=
  ⟨by decide,
   ((C2_defer_error_classification sampleJobQL "tok"
      (StoreError.failure "connection closed")).2.1 (by decide)).1⟩

/-- C3: for every job, fresh lock token and store behavior, the synchronous
defer_job and the asynchronous defer_job_async produce the same outcome; both
invoke the store on the parameters built by defer_job_query_kwargs, so the
query parameters and the lock-token fallback are identical, and they classify
errors identically. -/
theorem C3_defer_sync_async_equal
    (connector : DeferQueryArgs → Except StoreError DeferRow)
    (job : Job) (freshToken : String) :
    defer_job connector job freshToken = defer_job_async connector job freshToken :=
  rfl

/-- C4: the notification-channel mapping is a pure function; given no queue
filter it returns exactly the single wildcard channel, and given a non-empty
collection of queue names it returns exactly one channel per name, the fixed
text "procrastinate_queue#" followed by that name. -/
theorem C4_get_channel_for_queues_spec :
    get_channel_for_queues none = ["procrastinate_any_queue"]
    ∧ ∀ qs : List String, qs ≠ [] →
        (get_channel_for_queues (some qs)).length = qs.length
        ∧ ∀ i : Nat, (get_channel_for_queues (some qs))[i]?
            = (qs[i]?).map (fun queue => "procrastinate_queue#" ++ queue) := by
  refine ⟨rfl, fun qs _ => ⟨?_, fun i => ?_⟩⟩
  · simp [get_channel_for_queues]
  · simp [get_channel_for_queues]

theorem C4_get_channel_for_queues_witness :
    (["q1"] : List String) ≠ []
    ∧ (get_channel_for_queues (some ["q1"])).length = 1
    ∧ (get_channel_for_queues (some ["q1"]))[0]? = some "procrastinate_queue#q1" :=
  ⟨by decide,
   (C4_get_channel_for_queues_spec.2 ["q1"] (by decide)).1,
   by decide⟩

/-- C5 counterexample: the claim "when a lock is supplied, it is persisted
unchanged" fails at the empty-string lock — a job deferred with lock equal to
the empty string is persisted with the freshly generated token instead. -/
theorem C5_lock_unchanged_counterexample :
    sampleJobEmptyLock.lock = some ""
    ∧ (defer_job_query_kwargs sampleJobEmptyLock "b5f9e2").lock = "b5f9e2"
    ∧ ("b5f9e2" : String) ≠ "" := by
  refine ⟨rfl, by decide, by decide⟩

/-- C5 (amended): for every job deferred via defer_job or defer_job_async
whose lock field is unset, the persisted lock parameter is the freshly
generated token (the parameter is never null); when a non-empty lock is
supplied, it is persisted unchanged. -/
theorem C5_lock_fallback (job : Job) (freshToken : String) :
    (job.lock = none → (defer_job_query_kwargs job freshToken).lock = freshToken)
    ∧ (∀ s : String, job.lock = some s → s ≠ "" →
        (defer_job_query_kwargs job freshToken).lock = s) := by
  constructor
  · intro h
    simp [defer_job_query_kwargs, pyOrStr, h]
  · intro s h hs
    simp [defer_job_query_kwargs, pyOrStr, h, hs]

theorem C5_lock_fallback_witness :
    (sampleJobNoLock.lock = none
      ∧ (defer_job_query_kwargs sampleJobNoLock "tok1").lock = "tok1")
    ∧ (sampleJobNamedLock.lock = some "mylock"
      ∧ ("mylock" : String) ≠ ""
      ∧ (defer_job_query_kwargs sampleJobNamedLock "tok1").lock = "mylock") :=
  ⟨⟨rfl, (C5_lock_fallback sampleJobNoLock "tok1").1 rfl⟩,
   ⟨rfl, by decide,
    (C5_lock_fallback sampleJobNamedLock "tok1").2 "mylock" rfl (by decide)⟩⟩

/-- C6: the statuses passed to the delete-old-jobs store operation are exactly
the succeeded status when include_error is false or absent (the default), and
exactly succeeded and failed when it is true; no non-terminal status (todo,
doing) is ever included. -/
theorem C6_delete_old_jobs_statuses (nb_hours : Int) (queue : Option String) :
    (delete_old_jobs nb_hours queue (some false)).statuses = ["succeeded"]
    ∧ (delete_old_jobs nb_hours queue none).statuses = ["succeeded"]
    ∧ (delete_old_jobs nb_hours queue (some true)).statuses = ["succeeded", "failed"]
    ∧ ∀ include_error : Option Bool,
        ((delete_old_jobs nb_hours queue include_error).statuses.all
          (fun s => s == "succeeded" || s == "failed")) = true := by
  refine ⟨rfl, rfl, rfl, fun ie => ?_⟩
  match ie with
  | none => rfl
  | some true => rfl
  | some false => rfl

/-- C7: every row produced by list_queues_async and list_tasks_async is the
four-bucket projection of the corresponding input row (the projection type
carries all four status fields, so no key is ever missing), and any status
bucket absent from the underlying aggregation is reported as zero. -/
theorem C7_stats_zero_fill (rows : List StatsRow) (row : StatsRow) :
    (∀ i : Nat, (list_queues_async rows)[i]? = (rows[i]?).map queueStatsProjection)
    ∧ (∀ i : Nat, (list_tasks_async rows)[i]? = (rows[i]?).map taskStatsProjection)
    ∧ (row.stats.find? (fun p => p.1 == "todo") = none →
        (queueStatsProjection row).todo = 0 ∧ (taskStatsProjection row).todo = 0)
    ∧ (row.stats.find? (fun p => p.1 == "doing") = none →
        (queueStatsProjection row).doing = 0 ∧ (taskStatsProjection row).doing = 0)
    ∧ (row.stats.find? (fun p => p.1 == "succeeded") = none →
        (queueStatsProjection row).succeeded = 0
          ∧ (taskStatsProjection row).succeeded = 0)
    ∧ (row.stats.find? (fun p => p.1 == "failed") = none →
        (queueStatsProjection row).failed = 0 ∧ (taskStatsProjection row).failed = 0) := by
  refine ⟨fun i => ?_, fun i => ?_, fun h => ?_, fun h => ?_, fun h => ?_, fun h => ?_⟩
  · simp [list_queues_async]
  · simp [list_tasks_async]
  all_goals
    constructor <;> simp [queueStatsProjection, taskStatsProjection, statsGet, h]

theorem C7_stats_zero_fill_witness :
    sampleStatsRow.stats.find? (fun p => p.1 == "doing") = none
    ∧ (queueStatsProjection sampleStatsRow).doing = 0
    ∧ (taskStatsProjection sampleStatsRow).doing = 0 :=
  ⟨by decide,
   ((C7_stats_zero_fill [] sampleStatsRow).2.2.2.1 (by decide)).1,
   ((C7_stats_zero_fill [] sampleStatsRow).2.2.2.1 (by decide)).2⟩

/-- C8: fetch_job returns the None sentinel, not an error, when the answered
row carries a null id, and otherwise returns a job materialized from every
field of the row. -/
theorem C8_fetch_job_sentinel (connector : Option (List String) → FetchRow)
    (queues : Option (List String)) :
    ((connector queues).id = none → fetch_job connector queues = none)
    ∧ (∀ i : Int, (connector queues).id = some i →
        fetch_job connector queues = some (Job.from_row (connector queues))
        ∧ (Job.from_row (connector queues)).id = some i
        ∧ (Job.from_row (connector queues)).queue = (connector queues).queue_name
        ∧ (Job.from_row (connector queues)).task_name = (connector queues).task_name
        ∧ (Job.from_row (connector queues)).lock = (connector queues).lock
        ∧ (Job.from_row (connector queues)).queueing_lock = (connector queues).queueing_lock
        ∧ (Job.from_row (connector queues)).task_kwargs = (connector queues).args
        ∧ (Job.from_row (connector queues)).scheduled_at = (connector queues).scheduled_at
        ∧ (Job.from_row (connector queues)).attempts = (connector queues).attempts) := by
  constructor
  · intro h
    simp [fetch_job, h]
  · intro i h
    refine ⟨?_, ?_, rfl, rfl, rfl, rfl, rfl, rfl, rfl⟩
    · simp [fetch_job, h]
    · simp [Job.from_row, h]

theorem C8_fetch_job_sentinel_witness :
    ((fun _ : Option (List String) => sampleEmptyFetchRow) none).id = none
    ∧ fetch_job (fun _ : Option (List String) => sampleEmptyFetchRow) none = none :=
  ⟨rfl,
   (C8_fetch_job_sentinel
      (fun _ : Option (List String) => sampleEmptyFetchRow) none).1 rfl⟩

/-- C9: defer_periodic_job passes the task's lock to the store exactly as
given, with no random fallback — a null task lock is persisted as a null lock
parameter — unlike the defer-job parameters, which substitute the generated
token for a null lock. -/
theorem C9_periodic_no_lock_fallback (task : Task) (ts : Int) :
    (defer_periodic_query_args task ts).lock = task.lock
    ∧ (task.lock = none → (defer_periodic_query_args task ts).lock = none)
    ∧ ∀ (job : Job) (freshToken : String), job.lock = none →
        (defer_job_query_kwargs job freshToken).lock = freshToken := by
  refine ⟨rfl, fun h => ?_, fun job freshToken h => ?_⟩
  · simp [defer_periodic_query_args, h]
  · simp [defer_job_query_kwargs, pyOrStr, h]

theorem C9_periodic_no_lock_fallback_witness :
    sampleTask.lock = none
    ∧ (defer_periodic_query_args sampleTask 7).lock = none :=
  ⟨rfl, (C9_periodic_no_lock_fallback sampleTask 7).2.1 rfl⟩

/-- C10: the lock fallback in the defer-job parameters triggers on any falsy
lock, not only an absent one — an empty-string lock is persisted as the
freshly generated token, so two jobs both deferred with an empty-string lock
and distinct fresh tokens get distinct persisted locks and are never
serialized against each other. -/
theorem C10_empty_string_lock_fallback :
    (∀ (job : Job) (freshToken : String), job.lock = some "" →
      (defer_job_query_kwargs job freshToken).lock = freshToken)
    ∧ ∀ (j1 j2 : Job) (t1 t2 : String), j1.lock = some "" → j2.lock = some "" →
        t1 ≠ t2 →
        (defer_job_query_kwargs j1 t1).lock ≠ (defer_job_query_kwargs j2 t2).lock := by
  have hfall : ∀ (job : Job) (freshToken : String), job.lock = some "" →
      (defer_job_query_kwargs job freshToken).lock = freshToken := by
    intro job freshToken h
    simp [defer_job_query_kwargs, pyOrStr, h]
  refine ⟨hfall, fun j1 j2 t1 t2 h1 h2 hne => ?_⟩
  rw [hfall j1 t1 h1, hfall j2 t2 h2]
  exact hne

theorem C10_empty_string_lock_fallback_witness :
    sampleJobEmptyLock.lock = some ""
    ∧ ("u1" : String) ≠ "u2"
    ∧ (defer_job_query_kwargs sampleJobEmptyLock "u1").lock
      ≠ (defer_job_query_kwargs sampleJobEmptyLock "u2").lock :=
  ⟨rfl, by decide,
   C10_empty_string_lock_fallback.2 sampleJobEmptyLock sampleJobEmptyLock
      "u1" "u2" rfl rfl (by decide)⟩

end Procrastinate
